import Mathlib

/-
  Verification development for the Sentinel-2 STAC conversion module
  (src/stactools/sentinel2/stac.py).

  The Python module is shallowly embedded below.  Pure string/regex helpers
  are translated into executable Lean functions; the fallible parts
  (dictionary accesses, int(None), assertions, raised exceptions) are
  modelled with `Except Err`.  Python dictionaries are modelled as
  insertion-ordered association lists with Python's update semantics
  (inserting an existing key updates the value in place, new keys are
  appended; `dict(pairs)` lets the last value win while keeping the first
  position).

  Program constants and helpers that live in sibling modules of the
  repository (constants.py, utils.py) are not part of the provided source;
  they are either parameters (`Tables`) or definitions whose doc comment
  starts with "Modelled from the spec:".
-/

namespace S2

/-! ## Generic string / list helpers -/

/-- Numeric value of a decimal digit character. -/
def digitVal (c : Char) : Nat := c.toNat - '0'.toNat

/-- Regex-style search: try the pattern at position 0, 1, ... of the
character list and return the leftmost result (Python `re.search`). -/
def reSearch {α : Type} (p : List Char → Option α) : List Char → Option α
  | [] => none
  | c :: cs =>
    match p (c :: cs) with
    | some r => some r
    | none => reSearch p cs

/-- A path-separator character in the source's character classes (`[_/]`). -/
def isSep (c : Char) : Bool := c = '_' || c = '/'

/-- A `\w` word character (ASCII approximation used by all hrefs here). -/
def isWordChar (c : Char) : Bool := c.isAlphanum || c = '_'

/-- Substring test used for the source's `'_PVI' in asset_href`. -/
def containsPVI (s : String) : Bool :=
  (reSearch
    (fun l => if ['_', 'P', 'V', 'I'].isPrefixOf l then some () else none)
    s.toList).isSome

/-- BAND_PATTERN = `[_/](B\w{2})`: returns the captured group. -/
def bandSearch (s : String) : Option String :=
  reSearch
    (fun l =>
      match l with
      | c0 :: 'B' :: w1 :: w2 :: _ =>
        if isSep c0 && isWordChar w1 && isWordChar w2 then
          some (String.mk ['B', w1, w2])
        else none
      | _ => none)
    s.toList

/-- BAND_ID_PATTERN = `[_/](B\d[A\d])`: returns the captured group. -/
def bandIdSearch (s : String) : Option String :=
  reSearch
    (fun l =>
      match l with
      | c0 :: 'B' :: d :: x :: _ =>
        if isSep c0 && d.isDigit && (x = 'A' || x.isDigit) then
          some (String.mk ['B', d, x])
        else none
      | _ => none)
    s.toList

/-- IS_TCI_PATTERN = `[_/]TCI`. -/
def isTciSearch (s : String) : Bool :=
  (reSearch
    (fun l =>
      match l with
      | c0 :: 'T' :: 'C' :: 'I' :: _ =>
        if isSep c0 then some () else none
      | _ => none)
    s.toList).isSome

/-- Matcher for the `[_/]XYZ[_.]` pattern family (TCI/AOT/WVP/SCL). -/
def tagMatch (a b c : Char) (s : String) : Bool :=
  (reSearch
    (fun l =>
      match l with
      | c0 :: x :: y :: z :: c4 :: _ =>
        if isSep c0 && x = a && y = b && z = c && (c4 = '_' || c4 = '.') then
          some ()
        else none
      | _ => none)
    s.toList).isSome

/-- TCI_PATTERN = `[_/]TCI[_.]`. -/
def tciMatch (s : String) : Bool := tagMatch 'T' 'C' 'I' s

/-- AOT_PATTERN = `[_/]AOT[_.]`. -/
def aotMatch (s : String) : Bool := tagMatch 'A' 'O' 'T' s

/-- WVP_PATTERN = `[_/]WVP[_.]`. -/
def wvpMatch (s : String) : Bool := tagMatch 'W' 'V' 'P' s

/-- SCL_PATTERN = `[_/]SCL[_.]`. -/
def sclMatch (s : String) : Bool := tagMatch 'S' 'C' 'L' s

/-- Modelled from the spec: `utils.extract_gsd` is not under src/.  Per the
spec (§4.3), it parses an explicit resolution tag embedded in the filename
(10m/20m/60m style): the leftmost occurrence of two decimal digits followed
by the letter m, returned as an integer. -/
def extract_gsd (s : String) : Option Nat :=
  reSearch
    (fun l =>
      match l with
      | d1 :: d2 :: 'm' :: _ =>
        if d1.isDigit && d2.isDigit then some (digitVal d1 * 10 + digitVal d2)
        else none
      | _ => none)
    s.toList

/-- Latitude-band character class of MGRS_PATTERN. -/
def isLatBand (c : Char) : Bool := "CDEFGHJKLMNPQRSTUVWX".toList.contains c

/-- First grid-square character class of MGRS_PATTERN. -/
def isSquare1 (c : Char) : Bool := "ABCDEFGHJKLMNPQRSTUVWXYZ".toList.contains c

/-- Second grid-square character class of MGRS_PATTERN. -/
def isSquare2 (c : Char) : Bool := "ABCDEFGHJKLMNPQRSTUV".toList.contains c

/-- One-digit-zone attempt of MGRS_PATTERN after the `_T` anchor
(the backtracking fallback of the greedy `\d{1,2}`). -/
def mgrsTry1 (rest : List Char) : Option (Nat × Char × String) :=
  match rest with
  | d1 :: b :: s1 :: s2 :: _ =>
    if d1.isDigit && isLatBand b && isSquare1 s1 && isSquare2 s2 then
      some (digitVal d1, b, String.mk [s1, s2])
    else none
  | _ => none

/-- MGRS_PATTERN =
`_T(\d{1,2})([CDEFGHJKLMNPQRSTUVWX])([ABCDEFGHJKLMNPQRSTUVWXYZ][ABCDEFGHJKLMNPQRSTUV])`
tried at one position; the greedy `\d{1,2}` first tries two digits, then
backtracks to one. -/
def mgrsTryAt (l : List Char) : Option (Nat × Char × String) :=
  match l with
  | '_' :: 'T' :: rest =>
    match rest with
    | d1 :: d2 :: b :: s1 :: s2 :: _ =>
      if d1.isDigit && d2.isDigit && isLatBand b && isSquare1 s1 && isSquare2 s2
      then some (digitVal d1 * 10 + digitVal d2, b, String.mk [s1, s2])
      else mgrsTry1 rest
    | _ => mgrsTry1 rest
  | _ => none

/-- `MGRS_PATTERN.search`: leftmost match, groups (zone, band, square). -/
def mgrsSearch (s : String) : Option (Nat × Char × String) :=
  reSearch mgrsTryAt s.toList

/-- `os.path.splitext`: split off the extension at the last dot of the
basename, unless the basename up to that dot is all dots. -/
def splitext (s : String) : String × String :=
  let cs := s.toList
  let base0 : Nat :=
    match (cs.enum.filter (fun p => p.2 = '/')).getLast? with
    | some p => p.1 + 1
    | none => 0
  match (cs.enum.filter (fun p => p.2 = '.')).getLast? with
  | some p =>
    if Nat.ble base0 p.1 && ((cs.drop base0).take (p.1 - base0)).any (fun c => c != '.')
    then (String.mk (cs.take p.1), String.mk (cs.drop p.1))
    else (s, "")
  | none => (s, "")

/-- ASCII `str.lower` (all strings lowered by the module are ASCII). -/
def strToLower (s : String) : String :=
  String.mk (s.toList.map Char.toLower)

/-- `str.split` on a single separator character. -/
def splitOnChar (c : Char) : List Char → List (List Char)
  | [] => [[]]
  | x :: xs =>
    match splitOnChar c xs with
    | [] => [[x]]
    | g :: gs => if x = c then [] :: g :: gs else (x :: g) :: gs

/-- `os.path.join` for the two-argument uses in the source (POSIX rules). -/
def pyPathJoin (a b : String) : String :=
  if ['/'].isPrefixOf b.toList then b
  else if a = "" then b
  else if ['/'].isPrefixOf a.toList.reverse then a ++ b
  else a ++ "/" ++ b

/-- Python `a or b` on an optional string (None and "" are falsy). -/
def pyOrStr (a : Option String) (b : String) : String :=
  match a with
  | some s => if s = "" then b else s
  | none => b

/-- Python truthiness of an `Optional[str]` (None and "" are falsy). -/
def pyTruthyStr (o : Option String) : Bool :=
  match o with
  | some s => s ≠ ""
  | none => false

/-- Python truthiness of an `Optional[int]` (None and 0 are falsy). -/
def pyTruthyInt (o : Option Int) : Bool :=
  match o with
  | some n => n ≠ 0
  | none => false

/-! ## Python dictionaries as insertion-ordered association lists -/

/-- Lookup in an association list (first entry with the key). -/
def alookup {κ α : Type} [DecidableEq κ] : List (κ × α) → κ → Option α
  | [], _ => none
  | (k', v) :: rest, k => if k' = k then some v else alookup rest k

/-- Key-membership test (`k in d`). -/
def hasKey {κ α : Type} [DecidableEq κ] (l : List (κ × α)) (k : κ) : Bool :=
  (alookup l k).isSome

/-- Python `d[k] = v`: update the value in place if the key is present,
otherwise append the new pair. -/
def pyInsert {κ α : Type} [DecidableEq κ] : List (κ × α) → κ → α → List (κ × α)
  | [], k, v => [(k, v)]
  | (k', v') :: rest, k, v =>
    if k' = k then (k', v) :: rest else (k', v') :: pyInsert rest k v

/-- Python `dict(pairs)`: on duplicate keys, the last value wins but the
key keeps its first position. -/
def pyDict {κ α : Type} [DecidableEq κ] (pairs : List (κ × α)) : List (κ × α) :=
  pairs.foldl (fun acc p => pyInsert acc p.1 p.2) []

/-! ## Error model and data model -/

/-- The Python exceptions the module can raise. -/
inductive Err : Type
  | valueError (msg : String)
  | keyError (key : String)
  | typeError (msg : String)
  | indexError (key : String)
  | exception (msg : String)
  | assertionError
  deriving DecidableEq, Repr

/-- pystac.MediaType.JPEG2000 (external constant; opaque token). -/
def mediaTypeJPEG2000 : String := "image/jp2"

/-- pystac.MediaType.GEOTIFF (external constant; opaque token). -/
def mediaTypeGeoTIFF : String := "image/tiff; application=geotiff"

/-- pystac.MediaType.COG (external constant; opaque token). -/
def mediaTypeCOG : String :=
  "image/tiff; application=geotiff; profile=cloud-optimized"

/-- pystac.MediaType.XML (external constant; opaque token). -/
def mediaTypeXML : String := "application/xml"

/-- A pystac.Asset together with the extension fields the module sets on it.
EO bands are recorded by band id; the affine transform set by
`set_asset_properties` is floating-point math inside an external library
(`transform_from_bbox`) and is not modelled, its inputs (`proj_shape`,
`proj_bbox`) are. -/
structure Asset where
  href : String
  media_type : String
  title : Option String := none
  roles : List String := []
  eo_bands : Option (List String) := none
  gsd : Option Nat := none
  proj_shape : Option (List Nat) := none
  proj_bbox : Option (List Int) := none
  deriving DecidableEq, Repr

/-- The `Metadata` dataclass of stac.py.  Floating-point payloads
(geometry, bbox, cloud cover, datetime, metadata scalars) are carried as
opaque/integer values: the module copies them without computing with them
(except `90 - zenith`, which is preserved).  `epsg` is declared `int` in
the dataclass but `create_item` checks it against None, so it is an
`Option` here. -/
structure Metadata where
  scene_id : String
  cloudiness_percentage : Option Int
  extra_assets : List (String × Asset)
  geometry : String
  bbox : List Int
  datetime : Int
  platform : String
  metadata_dict : List (String × Int)
  image_media_type : String
  image_paths : List String
  epsg : Option Int
  proj_bbox : List Int
  resolution_to_shape : List (Nat × Nat × Nat)
  orbit_state : Option String := none
  relative_orbit : Option Int := none
  deriving DecidableEq, Repr

/-- The `sat` extension property group set on the item. -/
structure SatGroup where
  orbit_state : Option String
  relative_orbit : Option Int
  deriving DecidableEq, Repr

/-- The pystac.Item as populated by `create_item`. -/
structure Item where
  id : String
  geometry : String
  bbox : List Int
  datetime : Int
  properties : List (String × Int)
  providers : List String
  platform : String
  constellation : String
  instruments : List String
  cloud_cover : Option Int
  sat : Option SatGroup
  epsg : Option Int
  mgrs : Option (Nat × Char × String)
  grid_code : Option String
  sun_azimuth : Option Int
  sun_elevation : Option Int
  assets : List (String × Asset)
  links : List String
  deriving DecidableEq, Repr

/-- Modelled from the spec: the lookup tables SENTINEL_BANDS (band id →
band, represented by its description) and BANDS_TO_RESOLUTIONS (band id →
list of resolutions, native first) live in constants.py, which is not
under src/; the embedding is parameterised over them. -/
structure Tables where
  sentinelBands : String → Option String
  bandsToResolutions : String → Option (List Nat)

/-- Modelled from the spec: SENTINEL_PROVIDER (fixed default provider). -/
def SENTINEL_PROVIDER : String := "sentinel-provider"

/-- Modelled from the spec: SENTINEL_CONSTELLATION (fixed identifier). -/
def SENTINEL_CONSTELLATION : String := "sentinel-2"

/-- Modelled from the spec: SENTINEL_INSTRUMENTS (fixed identifiers). -/
def SENTINEL_INSTRUMENTS : List String := ["msi"]

/-- Modelled from the spec: the fixed license link appended to the item. -/
def SENTINEL_LICENSE : String := "sentinel-license"

/-- Modelled from the spec: SENTINEL2_PROPERTY_PREFIX (s2-prefixed keys). -/
def s2Pref : String := "s2"

/-- Modelled from the spec: the fixed INSPIRE metadata asset key. -/
def INSPIRE_METADATA_ASSET_KEY : String := "inspire-metadata"

/-- Modelled from the spec: the fixed datastrip metadata asset key. -/
def DATASTRIP_METADATA_ASSET_KEY : String := "datastrip-metadata"

/-! ## The asset classifier (stac.py lines 181-332) -/

/-- `mk_asset_id` (lines 331-332):
`f'{name}_{maybe_res}m' if maybe_res and maybe_res != 20 else name`.
Note the Python truthiness test: None and 0 both fail `maybe_res and ...`. -/
def mk_asset_id (maybe_res : Option Nat) (name : String) : String :=
  match maybe_res with
  | some r => if r ≠ 0 ∧ r ≠ 20 then name ++ "_" ++ toString r ++ "m" else name
  | none => name

/-- The preview asset built for `'_PVI' in asset_href` (lines 202-211). -/
def previewAsset (href : String) (asset_media_type : String) : Asset :=
  { href := href, media_type := asset_media_type,
    title := some "True color preview", roles := ["data"],
    eo_bands := some ["B04", "B03", "B02"] }

/-- `BANDS_TO_RESOLUTIONS[band_id][0]`: KeyError on a missing key,
IndexError on an empty resolution list. -/
def firstResolution (tables : Tables) (band_id : String) : Except Err Nat :=
  match tables.bandsToResolutions band_id with
  | some (r :: _) => .ok r
  | some [] => .error (.indexError band_id)
  | none => .error (.keyError band_id)

/-- Lines 213-224: resolve the raster resolution.  `extract_gsd` first;
otherwise BAND_PATTERN gives the band's native resolution; otherwise
IS_TCI_PATTERN defaults to 10.  A still-missing resolution surfaces as the
TypeError that `int(None)` raises at line 224. -/
def deduceResolution (tables : Tables) (href : String) : Except Err Nat :=
  match extract_gsd href with
  | some r => .ok r
  | none =>
    match bandSearch href with
    | some g => firstResolution tables g
    | none =>
      if isTciSearch href then .ok 10
      else .error (.typeError "int() argument cannot be NoneType")

/-- Lines 240-248: the try/except block of the band branch.  The try arm
uses the BAND_ID_PATTERN group and the already-deduced resolution; on a
SENTINEL_BANDS KeyError the band id is re-derived from the trailing token
of the filename stem and its native resolution is looked up (further
KeyErrors there propagate).  Returns (band_id, asset_res, description). -/
def bandIdAndRes (tables : Tables) (href : String) (g : String)
    (resolution : Nat) : Except Err (String × Nat × String) :=
  match tables.sentinelBands g with
  | some desc => .ok (g, resolution, desc)
  | none =>
    let band_id :=
      String.mk ((splitOnChar '_' (splitext href).1.toList).getLastD [])
    match tables.sentinelBands band_id with
    | none => .error (.keyError band_id)
    | some desc =>
      match tables.bandsToResolutions g with
      | some (r :: _) => .ok (band_id, r, desc)
      | some [] => .error (.indexError g)
      | none => .error (.keyError g)

/-- `set_asset_properties`' `if _band_gsd:` guard (lines 227-230): a gsd
of None or 0 is falsy and is not recorded. -/
def pyTruthyGsd (o : Option Nat) : Option Nat :=
  match o with
  | some g => if g ≠ 0 then some g else none
  | none => none

/-- Lines 238-276: the band-image branch, after BAND_ID_PATTERN matched
with group `g` and the resolution/shape step produced `resolution` and
`shape`. -/
def handleBandImage (tables : Tables) (href : String) (g : String)
    (resolution : Nat) (shape : List Nat) (proj_bbox : List Int)
    (asset_media_type : String) : Except Err (String × Asset) :=
  match bandIdAndRes tables href g resolution with
  | .error e => .error e
  | .ok (band_id, asset_res, desc) =>
    match firstResolution tables band_id with
    | .error e => .error e
    | .ok native =>
      let band_gsd : Option Nat :=
        if asset_res = native then some asset_res else none
      let asset_key :=
        if asset_res = native then band_id
        else band_id ++ "_" ++ toString asset_res ++ "m"
      .ok (asset_key,
        { href := href, media_type := asset_media_type,
          title := some (desc ++ " - " ++ toString asset_res ++ "m"),
          roles := ["data"], eo_bands := some [band_id],
          gsd := pyTruthyGsd band_gsd,
          proj_shape := some shape, proj_bbox := some proj_bbox })

/-- `image_asset_from_href` (lines 181-328). -/
def image_asset_from_href (tables : Tables) (href : String)
    (resolution_to_shape : List (Nat × Nat × Nat)) (proj_bbox : List Int)
    (media_type : Option String) : Except Err (String × Asset) :=
  let ext := (splitext href).2
  let mtE : Except Err String :=
    match media_type with
    | some m => .ok m
    | none =>
      if strToLower ext = ".jp2" then .ok mediaTypeJPEG2000
      else if strToLower ext = ".tiff" ∨ strToLower ext = ".tif" then
        .ok mediaTypeGeoTIFF
      else .error (.exception ("Must supply a media type for asset : " ++ href))
  match mtE with
  | .error e => .error e
  | .ok asset_media_type =>
    if containsPVI href then .ok ("preview", previewAsset href asset_media_type)
    else
      match deduceResolution tables href with
      | .error e => .error e
      | .ok r =>
        match alookup resolution_to_shape r with
        | none => .error (.keyError (toString r))
        | some sh =>
          let shape := [sh.1, sh.2]
          match bandIdSearch href with
          | some g =>
            handleBandImage tables href g r shape proj_bbox asset_media_type
          | none =>
            if tciMatch href then
              let maybe_res := extract_gsd href
              let asset_id :=
                match maybe_res with
                | some v =>
                  if v ≠ 0 ∧ v ≠ 10 then "visual_" ++ toString v ++ "m"
                  else "visual"
                | none => "visual"
              .ok (asset_id,
                { href := href, media_type := asset_media_type,
                  title := some "True color image", roles := ["visual"],
                  eo_bands := some ["B04", "B03", "B02"],
                  proj_shape := some shape, proj_bbox := some proj_bbox })
            else if aotMatch href then
              .ok (mk_asset_id (extract_gsd href) "AOT",
                { href := href, media_type := asset_media_type,
                  title := some "Aerosol optical thickness (AOT)",
                  roles := ["data"],
                  proj_shape := some shape, proj_bbox := some proj_bbox })
            else if wvpMatch href then
              .ok (mk_asset_id (extract_gsd href) "WVP",
                { href := href, media_type := asset_media_type,
                  title := some "Water vapour (WVP)", roles := ["data"],
                  proj_shape := some shape, proj_bbox := some proj_bbox })
            else if sclMatch href then
              .ok (mk_asset_id (extract_gsd href) "SCL",
                { href := href, media_type := asset_media_type,
                  title := some "Scene classification map (SCL)",
                  roles := ["data"],
                  proj_shape := some shape, proj_bbox := some proj_bbox })
            else .error (.valueError ("Unexpected asset: " ++ href))

/-- The classification outcome of one image href. -/
inductive AssetClass : Type
  | preview | band | tci | aot | wvp | scl | unexpected
  deriving DecidableEq, Repr

/-- Which branch of `image_asset_from_href` handles an href, following the
source's if/elif chain (lines 202, 238-239, 279, 295, 306, 317, 327). -/
def classify (href : String) : AssetClass :=
  if containsPVI href then .preview
  else if (bandIdSearch href).isSome then .band
  else if tciMatch href then .tci
  else if aotMatch href then .aot
  else if wvpMatch href then .wvp
  else if sclMatch href then .scl
  else .unexpected

/-- Written from the spec's words (§4.3): the ordered first-match-wins
rule list — PVI, band id, TCI, AOT, WVP, SCL. -/
def specClassificationRules : List ((String → Bool) × AssetClass) :=
  [(containsPVI, .preview),
   (fun h => (bandIdSearch h).isSome, .band),
   (tciMatch, .tci),
   (aotMatch, .aot),
   (wvpMatch, .wvp),
   (sclMatch, .scl)]

/-- Written from the spec's words (§4.3): evaluate the rules in precedence
order, first match wins, no match is the unexpected-asset case. -/
def specFirstMatch (href : String) : AssetClass :=
  match specClassificationRules.find? (fun rule => rule.1 href) with
  | some rule => rule.2
  | none => .unexpected

/-! ## The item assembler (stac.py lines 67-178) -/

/-- The EPSG error message of lines 131-133. -/
def epsgErrorMsg (granule_href : String) : String :=
  "Could not determine EPSG code for " ++ granule_href ++ "; which is required."

/-- Exception-propagating map, the semantics of the list comprehension at
lines 161-167 (the first raised exception aborts the whole build). -/
def mapExcept {α β : Type} (f : α → Except Err β) : List α → Except Err (List β)
  | [] => .ok []
  | a :: rest =>
    match f a with
    | .error e => .error e
    | .ok b =>
      match mapExcept f rest with
      | .error e => .error e
      | .ok bs => .ok (b :: bs)

/-- Lines 161-167: classify every image path, joining it to the asset
href base (`asset_href_prefix or granule_href`, Python `or`). -/
def imageAssetPairs (tables : Tables) (metadata : Metadata)
    ( asset_href_prefix : Option String) (granule_href : String) :
    Except Err (List (String × Asset)) :=
  mapExcept
    (fun image_path =>
      image_asset_from_href tables
        (pyPathJoin (pyOrStr asset_href_prefix granule_href) image_path)
        metadata.resolution_to_shape metadata.proj_bbox
        (some metadata.image_media_type))
    metadata.image_paths

/-- Lines 169-172: add each (key, asset) pair to the item, asserting the
key is not already present (`assert key not in item.assets`). -/
def addAssets : List (String × Asset) → List (String × Asset) →
    Except Err (List (String × Asset))
  | [], item_assets => .ok item_assets
  | (key, asset) :: rest, item_assets =>
    if hasKey item_assets key then .error .assertionError
    else addAssets rest (pyInsert item_assets key asset)

/-- `create_item` (lines 67-178), starting from the already-extracted
`Metadata` (the two `metadata_from_*` extractors perform the reads; the
`tolerance` and `read_href_modifier` arguments only feed those reads).
The stages follow the source's order: common metadata, eo, sat (Python
truthiness on `orbit_state or relative_orbit`), proj with the fatal
missing-EPSG check, MGRS/Grid (non-fatal on no match), view, properties,
assets (dict build then assert-add loop), license link. -/
def create_item (tables : Tables) (granule_href : String)
    (metadata : Metadata) (additional_providers : Option (List String))
    ( asset_href_prefix : Option String) : Except Err Item :=
  let providers := SENTINEL_PROVIDER ::
    (match additional_providers with
     | some ps => ps
     | none => [])
  let sat : Option SatGroup :=
    if pyTruthyStr metadata.orbit_state || pyTruthyInt metadata.relative_orbit
    then some
      { orbit_state :=
          if pyTruthyStr metadata.orbit_state then
            metadata.orbit_state.map strToLower
          else none,
        relative_orbit := metadata.relative_orbit }
    else none
  match metadata.epsg with
  | none => .error (.valueError (epsgErrorMsg granule_href))
  | some epsg =>
    let mgrs := mgrsSearch metadata.scene_id
    let grid_code := mgrs.map
      (fun g => "MGRS-" ++ toString g.1 ++ toString g.2.1 ++ g.2.2)
    let sun_azimuth :=
      alookup metadata.metadata_dict (s2Pref ++ ":mean_solar_azimuth")
    let sun_elevation :=
      match alookup metadata.metadata_dict (s2Pref ++ ":mean_solar_zenith") with
      | some msz => if msz ≠ 0 then some (90 - msz) else none
      | none => none
    match imageAssetPairs tables metadata asset_href_prefix granule_href with
    | .error e => .error e
    | .ok pairs =>
      let image_assets := pyDict pairs
      match addAssets (image_assets ++ metadata.extra_assets) [] with
      | .error e => .error e
      | .ok assets =>
        .ok
          { id := metadata.scene_id, geometry := metadata.geometry,
            bbox := metadata.bbox, datetime := metadata.datetime,
            properties := pyDict metadata.metadata_dict,
            providers := providers,
            platform := strToLower metadata.platform,
            constellation := SENTINEL_CONSTELLATION,
            instruments := SENTINEL_INSTRUMENTS,
            cloud_cover := metadata.cloudiness_percentage,
            sat := sat, epsg := some epsg,
            mgrs := mgrs, grid_code := grid_code,
            sun_azimuth := sun_azimuth, sun_elevation := sun_elevation,
            assets := assets, links := [SENTINEL_LICENSE] }

/-! ## The SAFE-manifest extractor (stac.py lines 336-382) -/

/-- Outputs of the SafeManifest collaborator (external reader). -/
structure SafeManifestOut where
  inspire_metadata_href : String
  datastrip_metadata_href : String
  thumbnail_href : Option String
  manifest_asset : String × Asset
  deriving DecidableEq, Repr

/-- Outputs of the ProductMetadata collaborator (external reader). -/
structure ProductMetadataOut where
  scene_id : String
  geometry : String
  bbox : List Int
  datetime : Int
  platform : String
  orbit_state : Option String
  relative_orbit : Option Int
  metadata_dict : List (String × Int)
  image_media_type : String
  image_paths : List String
  product_asset : String × Asset
  deriving DecidableEq, Repr

/-- Outputs of the GranuleMetadata collaborator (external reader). -/
structure GranuleMetadataOut where
  cloudiness_percentage : Option Int
  epsg : Option Int
  proj_bbox : List Int
  resolution_to_shape : List (Nat × Nat × Nat)
  metadata_dict : List (String × Int)
  granule_asset : String × Asset
  deriving DecidableEq, Repr

/-- `metadata_from_safe_manifest` (lines 336-382), over the collaborator
readers' outputs: the extra assets are the manifest / product-metadata /
granule-metadata assets plus the fixed-key INSPIRE and datastrip XML
assets, and — when the manifest exposes a thumbnail — a thumbnail asset
stored under the key "preview".  The metadata mapping is product overlaid
by granule (granule wins). -/
def metadata_from_safe_manifest (safe_manifest : SafeManifestOut)
    (product_metadata : ProductMetadataOut)
    (granule_metadata : GranuleMetadataOut) : Metadata :=
  let extra_assets0 := pyDict
    [safe_manifest.manifest_asset,
     product_metadata.product_asset,
     granule_metadata.granule_asset,
     (INSPIRE_METADATA_ASSET_KEY,
      { href := safe_manifest.inspire_metadata_href,
        media_type := mediaTypeXML, roles := ["metadata"] }),
     (DATASTRIP_METADATA_ASSET_KEY,
      { href := safe_manifest.datastrip_metadata_href,
        media_type := mediaTypeXML, roles := ["metadata"] })]
  let extra_assets :=
    match safe_manifest.thumbnail_href with
    | some t =>
      pyInsert extra_assets0 "preview"
        { href := t, media_type := mediaTypeCOG, roles := ["thumbnail"] }
    | none => extra_assets0
  { scene_id := product_metadata.scene_id,
    extra_assets := extra_assets,
    geometry := product_metadata.geometry,
    bbox := product_metadata.bbox,
    datetime := product_metadata.datetime,
    platform := product_metadata.platform,
    orbit_state := product_metadata.orbit_state,
    relative_orbit := product_metadata.relative_orbit,
    metadata_dict :=
      pyDict (product_metadata.metadata_dict ++ granule_metadata.metadata_dict),
    image_media_type := product_metadata.image_media_type,
    image_paths := product_metadata.image_paths,
    cloudiness_percentage := granule_metadata.cloudiness_percentage,
    epsg := granule_metadata.epsg,
    proj_bbox := granule_metadata.proj_bbox,
    resolution_to_shape := granule_metadata.resolution_to_shape }

/-! ## Concrete instances used by witnesses and counterexamples -/

/-- A concrete instantiation of the constants tables, holding the three
true-color bands at native resolution 10 (enough for the witnesses). -/
def cTables : Tables :=
  { sentinelBands := fun b =>
      if b = "B02" then some "Blue (band 2)"
      else if b = "B03" then some "Green (band 3)"
      else if b = "B04" then some "Red (band 4)"
      else none,
    bandsToResolutions := fun b =>
      if b = "B02" then some [10]
      else if b = "B03" then some [10]
      else if b = "B04" then some [10]
      else none }

/-- A metadata value whose two distinct image paths classify to the same
asset key "B02". -/
def mC1 : Metadata :=
  { scene_id := "S2A_T01CCV_X",
    cloudiness_percentage := some 8,
    extra_assets := [],
    geometry := "geom", bbox := [0, 0, 1, 1], datetime := 0,
    platform := "sentinel-2a", metadata_dict := [],
    image_media_type := "image/jp2",
    image_paths := ["GRANULE/R10m/B02_10m.jp2", "GRANULE/R10m/B02.jp2"],
    epsg := some 32601, proj_bbox := [0, 0, 4, 4],
    resolution_to_shape := [(10, 2, 2)] }

/-- A dummy extra asset used by concrete inputs. -/
def dummyAsset : Asset := { href := "dummy", media_type := "text/plain" }

/-- Success test for an Except value. -/
def isOkE {α : Type} : Except Err α → Bool
  | .ok _ => true
  | .error _ => false

/-! ## Association-list and assembler lemmas -/

theorem alookup_pyInsert {κ α : Type} [DecidableEq κ]
    (l : List (κ × α)) (k k₀ : κ) (v : α) :
    alookup (pyInsert l k v) k₀ = if k = k₀ then some v else alookup l k₀ := by
  induction l with
  | nil => by_cases h : k = k₀ <;> simp [pyInsert, alookup, h]
  | cons p rest ih =>
    obtain ⟨k', v'⟩ := p
    by_cases h1 : k' = k
    · subst h1
      by_cases h2 : k' = k₀ <;> simp [pyInsert, alookup, h2]
    · by_cases h2 : k' = k₀
      · subst h2
        have hk : ¬ k = k' := fun h => h1 h.symm
        simp [pyInsert, alookup, h1, hk]
      · simp [pyInsert, alookup, h1, h2, ih]

theorem hasKey_pyInsert {κ α : Type} [DecidableEq κ]
    (l : List (κ × α)) (k k₀ : κ) (v : α) :
    hasKey (pyInsert l k v) k₀ = if k = k₀ then true else hasKey l k₀ := by
  by_cases h : k = k₀ <;> simp [hasKey, alookup_pyInsert, h]

theorem addAssets_error_eq (l acc : List (String × Asset)) (e : Err) :
    addAssets l acc = .error e → e = .assertionError := by
  induction l generalizing acc with
  | nil => intro h; simp [addAssets] at h
  | cons p rest ih =>
    obtain ⟨k, a⟩ := p
    simp only [addAssets]
    split
    · intro h
      cases h
      rfl
    · exact ih _

theorem addAssets_ok_mono (l : List (String × Asset)) :
    ∀ (acc res : List (String × Asset)) (k : String),
      addAssets l acc = .ok res → hasKey acc k = true → hasKey res k = true := by
  induction l with
  | nil =>
    intro acc res k h hk
    simp [addAssets] at h
    subst h
    exact hk
  | cons p rest ih =>
    obtain ⟨k', a⟩ := p
    intro acc res k h hk
    simp only [addAssets] at h
    split at h
    · cases h
    · refine ih _ _ _ h ?_
      rw [hasKey_pyInsert]
      split <;> simp [hk]

theorem addAssets_ok_hasKey (l : List (String × Asset)) :
    ∀ (acc res : List (String × Asset)) (k : String),
      addAssets l acc = .ok res → hasKey l k = true → hasKey res k = true := by
  induction l with
  | nil => intro acc res k _ hk; simp [hasKey, alookup] at hk
  | cons p rest ih =>
    obtain ⟨k', a⟩ := p
    intro acc res k h hk
    simp only [addAssets] at h
    split at h
    · cases h
    · by_cases hkk : k' = k
      · subst hkk
        refine addAssets_ok_mono rest _ _ _ h ?_
        rw [hasKey_pyInsert]
        simp
      · refine ih _ _ _ h ?_
        simpa [hasKey, alookup, hkk] using hk

theorem addAssets_collision (l : List (String × Asset)) :
    ∀ (acc : List (String × Asset)) (k : String),
      hasKey acc k = true → hasKey l k = true →
      addAssets l acc = .error .assertionError := by
  induction l with
  | nil => intro acc k _ hk; simp [hasKey, alookup] at hk
  | cons p rest ih =>
    obtain ⟨k', a⟩ := p
    intro acc k hacc hk
    simp only [addAssets]
    split
    · rfl
    · rename_i hk'
      by_cases hkk : k' = k
      · subst hkk
        exact absurd hacc (by simpa using hk')
      · refine ih _ k ?_ ?_
        · rw [hasKey_pyInsert]
          split <;> simp [hacc]
        · simpa [hasKey, alookup, hkk] using hk

theorem addAssets_append (l₁ l₂ acc : List (String × Asset)) :
    addAssets (l₁ ++ l₂) acc =
      match addAssets l₁ acc with
      | .ok acc₁ => addAssets l₂ acc₁
      | .error e => .error e := by
  induction l₁ generalizing acc with
  | nil => simp [addAssets]
  | cons p rest ih =>
    obtain ⟨k, a⟩ := p
    simp only [List.cons_append, addAssets]
    split
    · rfl
    · exact ih _

theorem hasKey_pyDict_aux {κ α : Type} [DecidableEq κ]
    (ps : List (κ × α)) :
    ∀ (acc : List (κ × α)) (k : κ) (v : α),
      hasKey acc k = true ∨ (k, v) ∈ ps →
      hasKey (ps.foldl (fun acc p => pyInsert acc p.1 p.2) acc) k = true := by
  induction ps with
  | nil =>
    intro acc k v h
    rcases h with h | h
    · simpa using h
    · simp at h
  | cons p rest ih =>
    obtain ⟨k₁, v₁⟩ := p
    intro acc k v h
    simp only [List.foldl_cons]
    refine ih _ k v ?_
    rcases h with h | h
    · left
      rw [hasKey_pyInsert]
      split <;> simp [h]
    · rcases List.mem_cons.mp h with h | h
      · left
        obtain ⟨hk, _⟩ := Prod.mk.injEq .. ▸ h
        rw [hasKey_pyInsert]
        simp [Prod.ext_iff] at h
        simp [h.1]
      · right
        exact h

theorem hasKey_pyDict_of_mem {κ α : Type} [DecidableEq κ]
    (ps : List (κ × α)) (k : κ) (v : α) :
    (k, v) ∈ ps → hasKey (pyDict ps) k = true := by
  intro h
  exact hasKey_pyDict_aux ps [] k v (Or.inr h)

theorem mapExcept_mem {α β : Type} (f : α → Except Err β) (xs : List α) :
    ∀ (ys : List β) (x : α),
      mapExcept f xs = .ok ys → x ∈ xs → ∃ y, f x = .ok y ∧ y ∈ ys := by
  induction xs with
  | nil => intro ys x _ hx; simp at hx
  | cons a rest ih =>
    intro ys x h hx
    simp only [mapExcept] at h
    cases hfa : f a with
    | error e => rw [hfa] at h; cases h
    | ok b =>
      rw [hfa] at h
      cases hrest : mapExcept f rest with
      | error e => rw [hrest] at h; cases h
      | ok bs =>
        rw [hrest] at h
        cases h
        rcases List.mem_cons.mp hx with h | h
        · subst h
          exact ⟨b, hfa, List.mem_cons_self _ _⟩
        · obtain ⟨y, hy, hmem⟩ := ih bs x hrest h
          exact ⟨y, hy, List.mem_cons_of_mem _ hmem⟩

/-- If some key is shared between the classified image assets and the
extra assets, the assembler's assert-add loop fails with AssertionError. -/
theorem create_item_collision_assert (tables : Tables) (granule_href : String)
    (m : Metadata) (ap : Option (List String)) (ahp : Option String)
    (e : Int) (ps : List (String × Asset)) (k : String)
    (h1 : m.epsg = some e)
    (h2 : imageAssetPairs tables m ahp granule_href = .ok ps)
    (h3 : hasKey (pyDict ps) k = true)
    (h4 : hasKey m.extra_assets k = true) :
    create_item tables granule_href m ap ahp = .error .assertionError := by
  have herr : addAssets (pyDict ps ++ m.extra_assets) [] = .error .assertionError := by
    rw [addAssets_append]
    cases hA : addAssets (pyDict ps) [] with
    | error e' =>
      have := addAssets_error_eq _ _ _ hA
      subst this
      rfl
    | ok acc₁ =>
      have hk1 : hasKey acc₁ k = true := addAssets_ok_hasKey _ _ _ _ hA h3
      exact addAssets_collision _ _ _ hk1 h4
  simp only [create_item, h1, h2, herr]

/-! ## Further concrete inputs for witnesses and counterexamples -/

/-- mC1 with a single image path and an extra asset whose key collides
with the classified image-asset key "B02". -/
def mC1w : Metadata :=
  { mC1 with image_paths := ["GRANULE/R10m/B02.jp2"],
             extra_assets := [("B02", dummyAsset)] }

/-- The single classified image pair of mC1w. -/
def psC1w : List (String × Asset) :=
  [("B02",
    { href := "g/GRANULE/R10m/B02.jp2", media_type := "image/jp2",
      title := some "Blue (band 2) - 10m", roles := ["data"],
      eo_bands := some ["B02"], gsd := some 10,
      proj_shape := some [2, 2], proj_bbox := some [0, 0, 4, 4] })]

/-- mC1 with the EPSG code missing. -/
def mNoEpsg : Metadata := { mC1 with epsg := none }

/-- Metadata with orbit state absent and relative orbit present but 0. -/
def mC3 : Metadata :=
  { mC1 with image_paths := [], orbit_state := none, relative_orbit := some 0 }

/-- Metadata with a truthy orbit state and a zero relative orbit. -/
def m3w : Metadata :=
  { mC1 with image_paths := [], orbit_state := some "ASCENDING",
             relative_orbit := some 0 }

/-- The item create_item builds from m3w. -/
def cItem3 : Item :=
  { id := "S2A_T01CCV_X", geometry := "geom", bbox := [0, 0, 1, 1],
    datetime := 0, properties := [], providers := [SENTINEL_PROVIDER],
    platform := "sentinel-2a", constellation := SENTINEL_CONSTELLATION,
    instruments := SENTINEL_INSTRUMENTS, cloud_cover := some 8,
    sat := some { orbit_state := some "ascending", relative_orbit := some 0 },
    epsg := some 32601, mgrs := some (1, 'C', "CV"),
    grid_code := some "MGRS-1CCV", sun_azimuth := none, sun_elevation := none,
    assets := [], links := [SENTINEL_LICENSE] }

/-! ## Claims -/

/-- C1 counterexample.  Two distinct image paths that classify to the same
asset key "B02" do NOT make create_item raise: `dict(...)` at lines
161-167 silently keeps the last pair, the assert at line 171 never sees
the duplicate, and the conversion succeeds with a single "B02" asset. -/
theorem C1_silent_dedup_cex :
    mC1.image_paths.length = 2 ∧ mC1.image_paths.Nodup ∧
    (create_item cTables "g" mC1 none none).map
      (fun it => it.assets.map Prod.fst) = .ok ["B02"] :=
  ⟨rfl, by decide, by rfl⟩

/-- C1 (amended): the key-uniqueness assertion is only reachable for a
collision between a classified image-asset key and a key of the extra
(non-image) assets; such a collision makes create_item raise
AssertionError.  Collisions among the image paths themselves are silently
resolved last-wins by the dict construction before the assertion runs. -/
theorem C1_assertion_scope :
    ∀ (tables : Tables) (granule_href : String) (m : Metadata)
      (ap : Option (List String)) (ahp : Option String)
      (e : Int) (ps : List (String × Asset)) (k : String),
      m.epsg = some e →
      imageAssetPairs tables m ahp granule_href = .ok ps →
      hasKey (pyDict ps) k = true →
      hasKey m.extra_assets k = true →
      create_item tables granule_href m ap ahp = .error .assertionError :=
  fun tables gh m ap ahp e ps k h1 h2 h3 h4 =>
    create_item_collision_assert tables gh m ap ahp e ps k h1 h2 h3 h4

/-- C1 witness: a concrete collision between the image-asset key "B02"
and an extra asset stored under "B02" aborts with AssertionError. -/
theorem C1_assertion_scope_witness :
    mC1w.epsg = some 32601 ∧
    imageAssetPairs cTables mC1w none "g" = .ok psC1w ∧
    hasKey (pyDict psC1w) "B02" = true ∧
    hasKey mC1w.extra_assets "B02" = true ∧
    create_item cTables "g" mC1w none none = .error .assertionError :=
  ⟨by rfl, by rfl, by rfl, by rfl,
    C1_assertion_scope cTables "g" mC1w none none 32601 psC1w "B02"
      (by rfl) (by rfl) (by rfl) (by rfl)⟩

/-- C2: a missing EPSG code makes create_item raise the fatal ValueError,
and the outcome is independent of the classifier tables and of the image
paths — no image path is classified under a missing EPSG. -/
theorem C2_missing_epsg :
    ∀ (tables : Tables) (granule_href : String) (m : Metadata)
      (ap : Option (List String)) (ahp : Option String),
      m.epsg = none →
      create_item tables granule_href m ap ahp =
        .error (.valueError (epsgErrorMsg granule_href)) ∧
      ∀ (tables' : Tables) (paths : List String),
        create_item tables' granule_href { m with image_paths := paths } ap ahp =
          create_item tables granule_href m ap ahp := by
  intro tables gh m ap ahp h
  constructor
  · simp only [create_item, h]
  · intro tables' paths
    simp only [create_item, h]

/-- C2 witness at a concrete metadata value with no EPSG code. -/
theorem C2_missing_epsg_witness :
    mNoEpsg.epsg = none ∧
    create_item cTables "g" mNoEpsg none none =
      .error (.valueError (epsgErrorMsg "g")) ∧
    create_item cTables "g" { mNoEpsg with image_paths := [] } none none =
      create_item cTables "g" mNoEpsg none none :=
  ⟨by rfl, (C2_missing_epsg cTables "g" mNoEpsg none none (by rfl)).1,
    (C2_missing_epsg cTables "g" mNoEpsg none none (by rfl)).2 cTables []⟩

/-- C3 counterexample.  With orbit state absent and relative orbit present
and equal to 0, the sat property group is NOT attached: line 121's
`if metadata.orbit_state or metadata.relative_orbit` treats 0 as falsy. -/
theorem C3_zero_relative_orbit_cex :
    mC3.orbit_state = none ∧ mC3.relative_orbit = some 0 ∧
    (create_item cTables "g" mC3 none none).map (fun it => it.sat) =
      .ok none :=
  ⟨rfl, rfl, by rfl⟩

/-- C3 (amended): create_item attaches the sat group iff the orbit state
is present and non-empty, or the relative orbit is present and nonzero
(Python truthiness); a present relative orbit equal to 0 with orbit state
absent counts as absent and the group is omitted. -/
theorem C3_sat_truthiness :
    ∀ (tables : Tables) (gh : String) (m : Metadata)
      (ap : Option (List String)) (ahp : Option String) (item : Item),
      create_item tables gh m ap ahp = .ok item →
      item.sat =
        (if pyTruthyStr m.orbit_state || pyTruthyInt m.relative_orbit then
          some
            { orbit_state :=
                if pyTruthyStr m.orbit_state then
                  m.orbit_state.map strToLower
                else none,
              relative_orbit := m.relative_orbit }
        else none) := by
  intro tables gh m ap ahp item h
  simp only [create_item] at h
  split at h
  · simp at h
  · split at h
    · simp at h
    · split at h
      · simp at h
      · cases h
        rfl

/-- C3 witness: with a truthy orbit state and a zero relative orbit, the
group is attached with the lowercased orbit state. -/
theorem C3_sat_truthiness_witness :
    create_item cTables "g" m3w none none = .ok cItem3 ∧
    cItem3.sat =
      (if pyTruthyStr m3w.orbit_state || pyTruthyInt m3w.relative_orbit then
        some
          { orbit_state :=
              if pyTruthyStr m3w.orbit_state then
                m3w.orbit_state.map strToLower
              else none,
            relative_orbit := m3w.relative_orbit }
      else none) :=
  ⟨by rfl, C3_sat_truthiness cTables "g" m3w none none cItem3 (by rfl)⟩

/-- C4 counterexample.  An href matching none of the six patterns does
not necessarily raise the 'Unexpected asset' error: without a resolution
tag the classifier dies earlier, at `int(resolution)` with resolution
still None (line 224), before the else-branch at line 327 is reached. -/
theorem C4_unexpected_cex :
    classify "/foo.jp2" = .unexpected ∧
    image_asset_from_href cTables "/foo.jp2" [] [] (some "image/jp2") =
      .error (.typeError "int() argument cannot be NoneType") ∧
    Err.typeError "int() argument cannot be NoneType" ≠
      Err.valueError "Unexpected asset: /foo.jp2" :=
  ⟨by rfl, by rfl, by decide⟩

/-- C4 (amended): classification is first-match-wins in exactly the
spec's order — PVI, band id, TCI, AOT, WVP, SCL — (the source's branch
selector equals the spec's ordered-rule-list evaluation); a PVI href is
always the preview asset; and for an href matching none of the six
patterns the outcome is decided by the pre-branch resolution/shape step
(lines 213-224): if it resolves a resolution (from a filename tag, the
band-table lookup, or the TCI default) whose shape lookup succeeds, the
fatal 'Unexpected asset' error is raised; if the resolution step fails,
its own error is raised; if the shape lookup fails, its KeyError is
raised. -/
theorem C4_precedence :
    ∀ (tables : Tables) (href : String) (rts : List (Nat × Nat × Nat))
      (bbox : List Int) (mt : String),
      classify href = specFirstMatch href ∧
      (containsPVI href = true →
        image_asset_from_href tables href rts bbox (some mt) =
          .ok ("preview", previewAsset href mt)) ∧
      (classify href = .unexpected →
        (∀ (r : Nat) (sh : Nat × Nat),
          deduceResolution tables href = .ok r →
          alookup rts r = some sh →
          image_asset_from_href tables href rts bbox (some mt) =
            .error (.valueError ("Unexpected asset: " ++ href))) ∧
        (∀ (e : Err),
          deduceResolution tables href = .error e →
          image_asset_from_href tables href rts bbox (some mt) = .error e) ∧
        (∀ (r : Nat),
          deduceResolution tables href = .ok r →
          alookup rts r = none →
          image_asset_from_href tables href rts bbox (some mt) =
            .error (.keyError (toString r)))) := by
  intro tables href rts bbox mt
  refine ⟨?_, ?_, ?_⟩
  · by_cases h1 : containsPVI href <;>
    by_cases h2 : (bandIdSearch href).isSome <;>
    by_cases h3 : tciMatch href <;>
    by_cases h4 : aotMatch href <;>
    by_cases h5 : wvpMatch href <;>
    by_cases h6 : sclMatch href <;>
    simp [classify, specFirstMatch, specClassificationRules, List.find?,
      h1, h2, h3, h4, h5, h6]
  · intro hpvi
    simp [image_asset_from_href, hpvi]
  · intro hcls
    by_cases h1 : containsPVI href
    · simp [classify, h1] at hcls
    · cases hb : bandIdSearch href with
      | some g => simp [classify, h1, hb] at hcls
      | none =>
        by_cases h3 : tciMatch href
        · simp [classify, h1, hb, h3] at hcls
        · by_cases h4 : aotMatch href
          · simp [classify, h1, hb, h3, h4] at hcls
          · by_cases h5 : wvpMatch href
            · simp [classify, h1, hb, h3, h4, h5] at hcls
            · by_cases h6 : sclMatch href
              · simp [classify, h1, hb, h3, h4, h5, h6] at hcls
              · refine ⟨?_, ?_, ?_⟩
                · intro r sh hded hsh
                  simp [image_asset_from_href, h1, hb, h3, h4, h5, h6,
                    hded, hsh]
                · intro e hded
                  simp [image_asset_from_href, h1, hded]
                · intro r hded hsh
                  simp [image_asset_from_href, h1, hded, hsh]

/-- C4 witness: a pattern-free href with a resolution tag present in the
shape mapping raises exactly the 'Unexpected asset' ValueError, and so
does a tag-free href ("/TCIX.jp2") whose resolution comes from the
IS_TCI fallback; the branch selector agrees with the spec's rule order
in both cases. -/
theorem C4_precedence_witness :
    classify "/XYZ_10m.jp2" = specFirstMatch "/XYZ_10m.jp2" ∧
    image_asset_from_href cTables "/XYZ_10m.jp2" [(10, 2, 2)] []
        (some "image/jp2") =
      .error (.valueError ("Unexpected asset: " ++ "/XYZ_10m.jp2")) ∧
    extract_gsd "/TCIX.jp2" = none ∧
    image_asset_from_href cTables "/TCIX.jp2" [(10, 2, 2)] []
        (some "image/jp2") =
      .error (.valueError ("Unexpected asset: " ++ "/TCIX.jp2")) :=
  ⟨(C4_precedence cTables "/XYZ_10m.jp2" [(10, 2, 2)] [] "image/jp2").1,
   ((C4_precedence cTables "/XYZ_10m.jp2" [(10, 2, 2)] []
      "image/jp2").2.2 (by rfl)).1 10 (2, 2) (by rfl) (by rfl),
   by rfl,
   ((C4_precedence cTables "/TCIX.jp2" [(10, 2, 2)] []
      "image/jp2").2.2 (by rfl)).1 10 (2, 2) (by rfl) (by rfl)⟩

/-- C5: round-trip resolution rule for band assets.  Once the band branch
has determined (band_id, asset_res, description) and the band's native
resolution (positive, as all real band resolutions are), the asset key is
the bare band id with gsd recorded iff asset_res equals the native
resolution; otherwise the key carries the `_{res}m` suffix and gsd is
absent. -/
theorem C5_band_resolution_roundtrip :
    ∀ (tables : Tables) (href : String) (rts : List (Nat × Nat × Nat))
      (bbox : List Int) (mt : String) (g : String) (r : Nat) (sh : Nat × Nat)
      (band_id : String) (asset_res : Nat) (desc : String) (native : Nat),
      containsPVI href = false →
      deduceResolution tables href = .ok r →
      alookup rts r = some sh →
      bandIdSearch href = some g →
      bandIdAndRes tables href g r = .ok (band_id, asset_res, desc) →
      firstResolution tables band_id = .ok native →
      0 < native →
      (asset_res = native →
        image_asset_from_href tables href rts bbox (some mt) =
          .ok (band_id,
            { href := href, media_type := mt,
              title := some (desc ++ " - " ++ toString asset_res ++ "m"),
              roles := ["data"], eo_bands := some [band_id],
              gsd := some asset_res,
              proj_shape := some [sh.1, sh.2], proj_bbox := some bbox })) ∧
      (asset_res ≠ native →
        image_asset_from_href tables href rts bbox (some mt) =
          .ok (band_id ++ "_" ++ toString asset_res ++ "m",
            { href := href, media_type := mt,
              title := some (desc ++ " - " ++ toString asset_res ++ "m"),
              roles := ["data"], eo_bands := some [band_id],
              gsd := none,
              proj_shape := some [sh.1, sh.2], proj_bbox := some bbox })) := by
  intro tables href rts bbox mt g r sh band_id asset_res desc native
    hpvi hded hsh hbid hband hfirst hpos
  have hne : native ≠ 0 := Nat.pos_iff_ne_zero.mp hpos
  constructor
  · intro heq
    subst heq
    simp [image_asset_from_href, hpvi, hded, hsh, hbid, handleBandImage,
      hband, hfirst, pyTruthyGsd, hne]
  · intro hne2
    simp [image_asset_from_href, hpvi, hded, hsh, hbid, handleBandImage,
      hband, hfirst, pyTruthyGsd, hne2]

/-- C5 witness: an href at the band's native resolution keeps the bare
key "B02" and records gsd 10. -/
theorem C5_band_resolution_roundtrip_witness :
    image_asset_from_href cTables "/R10m/B02_10m.jp2" [(10, 2, 2)]
        [0, 0, 4, 4] (some "image/jp2") =
      .ok ("B02",
        { href := "/R10m/B02_10m.jp2", media_type := "image/jp2",
          title := some ("Blue (band 2)" ++ " - " ++ toString 10 ++ "m"),
          roles := ["data"], eo_bands := some ["B02"], gsd := some 10,
          proj_shape := some [2, 2], proj_bbox := some [0, 0, 4, 4] }) :=
  (C5_band_resolution_roundtrip cTables "/R10m/B02_10m.jp2" [(10, 2, 2)]
    [0, 0, 4, 4] "image/jp2" "B02" 10 (2, 2) "B02" 10 "Blue (band 2)" 10
    (by rfl) (by rfl) (by rfl) (by rfl) (by rfl) (by rfl) (by decide)).1 rfl

/-- C6 counterexample.  An SCL href with the embedded resolution tag 00m
yields an extracted resolution 0, which is present and different from the
default 20, yet `mk_asset_id` returns the bare key "SCL" because Python's
`maybe_res and maybe_res != 20` treats 0 as falsy. -/
theorem C6_zero_resolution_cex :
    extract_gsd "/SCL_00m.jp2" = some 0 ∧ (0 : Nat) ≠ 20 ∧
    (image_asset_from_href cTables "/SCL_00m.jp2" [(0, 1, 1)] []
        (some "image/jp2")).map Prod.fst = .ok "SCL" ∧
    "SCL" ≠ "SCL_0m" :=
  ⟨by rfl, by decide, by rfl, by decide⟩

/-- C6 (amended): for TCI/AOT/WVP/SCL assets the key is the bare semantic
name when the resolution extracted from the filename is absent, zero, or
equal to the product's default (10 for visual, 20 for AOT/WVP/SCL), and
`{name}_{resolution}m` otherwise — zero joins the bare-name cases because
of the Python truthiness test in the key builders.  The key is computed
from `extract_gsd` of the href (an Option, so the absent case is
covered); only the pre-branch resolution/shape step is assumed to
succeed, however the resolution was obtained. -/
theorem C6_aux_naming :
    ∀ (tables : Tables) (href : String) (rts : List (Nat × Nat × Nat))
      (bbox : List Int) (mt : String) (r0 : Nat) (sh : Nat × Nat),
      containsPVI href = false →
      bandIdSearch href = none →
      deduceResolution tables href = .ok r0 →
      alookup rts r0 = some sh →
      ((tciMatch href = true →
        (image_asset_from_href tables href rts bbox (some mt)).map Prod.fst =
          .ok (match extract_gsd href with
               | some v =>
                 if v ≠ 0 ∧ v ≠ 10 then "visual_" ++ toString v ++ "m"
                 else "visual"
               | none => "visual")) ∧
       (tciMatch href = false → aotMatch href = true →
        (image_asset_from_href tables href rts bbox (some mt)).map Prod.fst =
          .ok (mk_asset_id (extract_gsd href) "AOT")) ∧
       (tciMatch href = false → aotMatch href = false → wvpMatch href = true →
        (image_asset_from_href tables href rts bbox (some mt)).map Prod.fst =
          .ok (mk_asset_id (extract_gsd href) "WVP")) ∧
       (tciMatch href = false → aotMatch href = false → wvpMatch href = false →
        sclMatch href = true →
        (image_asset_from_href tables href rts bbox (some mt)).map Prod.fst =
          .ok (mk_asset_id (extract_gsd href) "SCL"))) := by
  intro tables href rts bbox mt r0 sh hpvi hbid hded hsh
  refine ⟨?_, ?_, ?_, ?_⟩
  · intro h3
    simp [image_asset_from_href, hpvi, hbid, hded, hsh, h3, Except.map]
  · intro h3 h4
    simp [image_asset_from_href, hpvi, hbid, hded, hsh, h3, h4, Except.map]
  · intro h3 h4 h5
    simp [image_asset_from_href, hpvi, hbid, hded, hsh, h3, h4, h5,
      Except.map]
  · intro h3 h4 h5 h6
    simp [image_asset_from_href, hpvi, hbid, hded, hsh, h3, h4, h5, h6,
      Except.map]

/-- C6 witness: `/SCL_60m.jp2` (resolution 60, default 20) gets the
suffixed key "SCL_60m", matching the spec's scenario, and `/TCI.jp2`
(no resolution tag at all, classified via the TCI default) gets the
bare key "visual" — the absent case of the rule. -/
theorem C6_aux_naming_witness :
    (image_asset_from_href cTables "/SCL_60m.jp2" [(60, 3, 3)] []
        (some "image/jp2")).map Prod.fst = .ok "SCL_60m" ∧
    extract_gsd "/TCI.jp2" = none ∧
    (image_asset_from_href cTables "/TCI.jp2" [(10, 2, 2)] []
        (some "image/jp2")).map Prod.fst = .ok "visual" := by
  refine ⟨?_, by rfl, ?_⟩
  · have h := (C6_aux_naming cTables "/SCL_60m.jp2" [(60, 3, 3)] []
      "image/jp2" 60 (3, 3) (by rfl) (by rfl) (by rfl) (by rfl)).2.2.2
      (by rfl) (by rfl) (by rfl) (by rfl)
    simpa using h
  · have h := (C6_aux_naming cTables "/TCI.jp2" [(10, 2, 2)] []
      "image/jp2" 10 (2, 2) (by rfl) (by rfl) (by rfl) (by rfl)).1
      (by rfl)
    simpa using h

/-- C7: the MGRS/Grid fields of a successfully built item are exactly the
(zone, band, square) parsed from the scene id by the tile-designator
pattern, with the grid code `MGRS-{zone}{band}{square}` rendering the
zone as an unpadded integer, and they are omitted (None) when the pattern
does not match; a non-matching scene id never changes success into
failure (non-fatal, the conversion continues).  Concretely, a zone
written "01" in the id parses to 1. -/
theorem C7_mgrs_grid :
    (∀ (tables : Tables) (gh : String) (m : Metadata)
       (ap : Option (List String)) (ahp : Option String),
      (create_item tables gh m ap ahp).map (fun it => (it.mgrs, it.grid_code)) =
        (create_item tables gh m ap ahp).map (fun _ =>
          (mgrsSearch m.scene_id,
           (mgrsSearch m.scene_id).map
             (fun g => "MGRS-" ++ toString g.1 ++ toString g.2.1 ++ g.2.2))) ∧
      ∀ (sid : String),
        isOkE (create_item tables gh { m with scene_id := sid } ap ahp) =
          isOkE (create_item tables gh m ap ahp)) ∧
    mgrsSearch "S2A_MSIL2A_T01CCV" = some (1, 'C', "CV") := by
  refine ⟨?_, by rfl⟩
  intro tables gh m ap ahp
  constructor
  · cases hepsg : m.epsg with
    | none => simp [create_item, hepsg, Except.map]
    | some e =>
      cases hpairs : imageAssetPairs tables m ahp gh with
      | error e' => simp [create_item, hepsg, hpairs, Except.map]
      | ok ps =>
        cases hadd : addAssets (pyDict ps ++ m.extra_assets) [] with
        | error e' => simp [create_item, hepsg, hpairs, hadd, Except.map]
        | ok assets => simp [create_item, hepsg, hpairs, hadd, Except.map]
  · intro sid
    have hchar : ∀ (mm : Metadata),
        isOkE (create_item tables gh mm ap ahp) =
          (match mm.epsg with
           | none => false
           | some _ =>
             match imageAssetPairs tables mm ahp gh with
             | .error _ => false
             | .ok ps => isOkE (addAssets (pyDict ps ++ mm.extra_assets) [])) := by
      intro mm
      cases hepsg : mm.epsg with
      | none => simp [create_item, hepsg, isOkE]
      | some e =>
        cases hpairs : imageAssetPairs tables mm ahp gh with
        | error e2 => simp [create_item, hepsg, hpairs, isOkE]
        | ok ps =>
          cases hadd : addAssets (pyDict ps ++ mm.extra_assets) [] with
          | error e2 => simp [create_item, hepsg, hpairs, hadd, isOkE]
          | ok assets => simp [create_item, hepsg, hpairs, hadd, isOkE]
    rw [hchar, hchar]
    rfl

/-- C8: create_item is a pure function of the extracted metadata and its
arguments — equal inputs give identical items. -/
theorem C8_deterministic :
    ∀ (tables : Tables) (gh : String) (m1 m2 : Metadata)
      (ap : Option (List String)) (ahp : Option String),
      m1 = m2 →
      create_item tables gh m1 ap ahp = create_item tables gh m2 ap ahp := by
  intro tables gh m1 m2 ap ahp h
  rw [h]

/-- C8 witness at a concrete input. -/
theorem C8_deterministic_witness :
    mC1 = mC1 ∧
    create_item cTables "g" mC1 none none =
      create_item cTables "g" mC1 none none :=
  ⟨rfl, C8_deterministic cTables "g" mC1 mC1 none none rfl⟩

/-- Concrete SAFE-manifest reader outputs with a thumbnail present. -/
def smW : SafeManifestOut :=
  { inspire_metadata_href := "inspire.xml",
    datastrip_metadata_href := "datastrip.xml",
    thumbnail_href := some "thumbnail.jpg",
    manifest_asset := ("safe-manifest", dummyAsset) }

/-- Concrete product-metadata reader outputs with one PVI image path. -/
def pmW : ProductMetadataOut :=
  { scene_id := "S2A_T01CCV_X", geometry := "geom", bbox := [0, 0, 1, 1],
    datetime := 0, platform := "Sentinel-2A", orbit_state := none,
    relative_orbit := none, metadata_dict := [],
    image_media_type := "image/jp2", image_paths := ["X_PVI.jp2"],
    product_asset := ("product-metadata", dummyAsset) }

/-- Concrete granule-metadata reader outputs. -/
def gmW : GranuleMetadataOut :=
  { cloudiness_percentage := none, epsg := some 32601, proj_bbox := [],
    resolution_to_shape := [], metadata_dict := [],
    granule_asset := ("granule-metadata", dummyAsset) }

/-- The single classified image pair of the SAFE witness input. -/
def psW : List (String × Asset) :=
  [("preview", previewAsset "g/X_PVI.jp2" "image/jp2")]

/-- C9: in the SAFE path a manifest thumbnail is stored in the extra
assets under the key "preview"; the classifier returns the key "preview"
for every href containing '_PVI'; hence a SAFE input with both a
thumbnail and a classified PVI image path aborts with the assembler's
AssertionError. -/
theorem C9_safe_preview_collision :
    ∀ (tables : Tables) (sm : SafeManifestOut) (pm : ProductMetadataOut)
      (gm : GranuleMetadataOut) (gh : String) (ap : Option (List String))
      (ahp : Option String) (t : String) (e : Int)
      (ps : List (String × Asset)) (p : String),
      sm.thumbnail_href = some t →
      alookup (metadata_from_safe_manifest sm pm gm).extra_assets "preview" =
        some { href := t, media_type := mediaTypeCOG,
               roles := ["thumbnail"] } ∧
      (∀ (href : String) (rts : List (Nat × Nat × Nat)) (bbox : List Int)
         (mt : String),
        containsPVI href = true →
        (image_asset_from_href tables href rts bbox (some mt)).map Prod.fst =
          .ok "preview") ∧
      (gm.epsg = some e →
       imageAssetPairs tables (metadata_from_safe_manifest sm pm gm) ahp gh =
         .ok ps →
       p ∈ pm.image_paths →
       containsPVI (pyPathJoin (pyOrStr ahp gh) p) = true →
       create_item tables gh (metadata_from_safe_manifest sm pm gm) ap ahp =
         .error .assertionError) := by
  intro tables sm pm gm gh ap ahp t e ps p hthumb
  refine ⟨?_, ?_, ?_⟩
  · simp [metadata_from_safe_manifest, hthumb, alookup_pyInsert]
  · intro href rts bbox mt hpvi
    simp [image_asset_from_href, hpvi, Except.map]
  · intro hepsg hpairs hmem hpvi
    have hmem2 : p ∈ (metadata_from_safe_manifest sm pm gm).image_paths := hmem
    obtain ⟨pr, hpr, hprmem⟩ :=
      mapExcept_mem
        (fun image_path =>
          image_asset_from_href tables
            (pyPathJoin (pyOrStr ahp gh) image_path)
            (metadata_from_safe_manifest sm pm gm).resolution_to_shape
            (metadata_from_safe_manifest sm pm gm).proj_bbox
            (some (metadata_from_safe_manifest sm pm gm).image_media_type))
        (metadata_from_safe_manifest sm pm gm).image_paths ps p hpairs hmem2
    have hp2 :
        image_asset_from_href tables (pyPathJoin (pyOrStr ahp gh) p)
          (metadata_from_safe_manifest sm pm gm).resolution_to_shape
          (metadata_from_safe_manifest sm pm gm).proj_bbox
          (some (metadata_from_safe_manifest sm pm gm).image_media_type) =
        .ok ("preview",
          previewAsset (pyPathJoin (pyOrStr ahp gh) p)
            (metadata_from_safe_manifest sm pm gm).image_media_type) := by
      simp [image_asset_from_href, hpvi]
    rw [hp2] at hpr
    cases hpr
    have hkey : hasKey (pyDict ps) "preview" = true :=
      hasKey_pyDict_of_mem ps "preview" _ hprmem
    have hx : hasKey (metadata_from_safe_manifest sm pm gm).extra_assets
        "preview" = true := by
      simp [metadata_from_safe_manifest, hthumb, hasKey, alookup_pyInsert]
    exact create_item_collision_assert tables gh
      (metadata_from_safe_manifest sm pm gm) ap ahp e ps "preview"
      hepsg hpairs hkey hx

/-- C9 witness: a concrete SAFE input with a thumbnail and a PVI image
path aborts with AssertionError. -/
theorem C9_safe_preview_collision_witness :
    smW.thumbnail_href = some "thumbnail.jpg" ∧
    gmW.epsg = some 32601 ∧
    imageAssetPairs cTables (metadata_from_safe_manifest smW pmW gmW) none
      "g" = .ok psW ∧
    create_item cTables "g" (metadata_from_safe_manifest smW pmW gmW) none
      none = .error .assertionError := by
  refine ⟨rfl, rfl, by rfl, ?_⟩
  exact (C9_safe_preview_collision cTables smW pmW gmW "g" none none
    "thumbnail.jpg" 32601 psW "X_PVI.jp2" rfl).2.2 rfl (by rfl) (by decide)
    (by rfl)

/-- C10: an href without '_PVI', matching neither BAND_PATTERN nor
IS_TCI_PATTERN and embedding no resolution tag leaves the resolution
None, so the classifier dies at the unguarded `int(resolution)` /
resolution-to-shape lookup with a TypeError — which is never the
ValueError of the 'Unexpected asset' branch. -/
theorem C10_missing_resolution_tag :
    ∀ (tables : Tables) (href : String) (rts : List (Nat × Nat × Nat))
      (bbox : List Int) (mt : String),
      containsPVI href = false →
      extract_gsd href = none →
      bandSearch href = none →
      isTciSearch href = false →
      image_asset_from_href tables href rts bbox (some mt) =
        .error (.typeError "int() argument cannot be NoneType") ∧
      ∀ (s : String),
        Err.typeError "int() argument cannot be NoneType" ≠
          Err.valueError s := by
  intro tables href rts bbox mt h1 h2 h3 h4
  constructor
  · simp [image_asset_from_href, h1, deduceResolution, h2, h3, h4]
  · intro s h
    exact Err.noConfusion h

/-- C10 witness: "/AOT.jp2" matches the AOT pattern but carries no
resolution tag; the classifier raises the TypeError, not the
'Unexpected asset' error. -/
theorem C10_missing_resolution_tag_witness :
    aotMatch "/AOT.jp2" = true ∧
    image_asset_from_href cTables "/AOT.jp2" [] [] (some "image/jp2") =
      .error (.typeError "int() argument cannot be NoneType") :=
  ⟨by rfl, (C10_missing_resolution_tag cTables "/AOT.jp2" [] [] "image/jp2"
    (by rfl) (by rfl) (by rfl) (by rfl)).1⟩

end S2
